import Mathlib

/-
Verification of the configuration-cleanup script (ConfigCleanup) described
in this repository: the deleteConfig function of src/scripts/pre-uninstall.js
and the getDeleteConfigConfirmation function of src/lib/prompt.js, as given
in the article on gracefully cleaning up configuration files.

The script is embedded shallowly as a pure state transformer:
- the filesystem is a pair of flags (does the config file exist, does the
  config directory exist), and each fs.* call may additionally be made to
  raise via an injected fault flag (permissions, I/O errors, ...);
- the JSON.parse outcome of the npm_config_argv environment string is
  abstracted to an inductive: either the string is not valid JSON (JSON.parse
  throws a SyntaxError), or it parses to an object whose original property is
  absent or is an array of strings — the shapes npm actually produces;
- the interactive confirmation reply is an input Boolean;
- a run returns the final filesystem, a trace (number of existsSync /
  prompt / unlinkSync / rmdirSync calls and the console.log output, in
  order), and the error, if any, escaping the function's boundary.
-/

namespace ConfigCleanup

/-- Message logged when the user declines the confirmation prompt. -/
def keepConfigMsg : String :=
  "\nWise choice! We will keep the app configuration for future use."

/-- Message logged after the config file and directory are deleted. -/
def successMsg : String :=
  "\nThe app configuration has been successfully deleted."

/-- First message logged by the catch-block. -/
def failedMsg : String :=
  "\nFailed to delete the app configuration."

/-- Second message logged by the catch-block, naming the config directory. -/
def manualDeleteMsg (configDirPath : String) : String :=
  "Manually delete the following directory: " ++ configDirPath ++ "\n"

/-- Model of Node's path.dirname for POSIX paths: everything before the last
separator (the parent directory of the argument). -/
def dirname (p : String) : String :=
  match (p.splitOn "/").dropLast with
  | [] => "."
  | [""] => "/"
  | parts => String.intercalate "/" parts

/-- Outcome of JSON.parse on the npm_config_argv string: either the string is
not valid JSON (JSON.parse throws), or it is an object whose original
property is absent or holds an array of strings (the command tokens npm
recorded). -/
inductive ArgvParse where
  | invalid : ArgvParse
  | valid (original : Option (List String)) : ArgvParse
deriving DecidableEq

/-- The part of the process environment deleteConfig reads: npm_config_argv,
abstracted to its parse outcome; none means the variable is unset. -/
structure Env where
  npm_config_argv : Option ArgvParse
deriving DecidableEq

/-- The filesystem as deleteConfig sees it: whether the configuration file
exists and whether its parent directory exists. -/
structure FsState where
  fileExists : Bool
  dirExists : Bool
deriving DecidableEq

/-- Injected filesystem errors: when a flag is set, the corresponding fs.*
call throws (permissions, I/O error, ...) instead of acting. -/
structure Faults where
  existsSyncFault : Bool
  unlinkFault : Bool
  rmdirFault : Bool
deriving DecidableEq

/-- Errors that can escape deleteConfig's boundary. Filesystem errors are
caught by its try/catch, so only the JSON.parse SyntaxError remains. -/
inductive JsError where
  | jsonParse : JsError
deriving DecidableEq

/-- Observable trace of one run: how many times each effectful primitive was
invoked, and the console.log output in order. -/
structure Trace where
  existsCalls : Nat
  promptCalls : Nat
  unlinkCalls : Nat
  rmdirCalls : Nat
  logs : List String
deriving DecidableEq

/-- The empty trace: nothing called, nothing logged. -/
def Trace.empty : Trace := ⟨0, 0, 0, 0, []⟩

/-- Result of a run of deleteConfig: final filesystem, trace, and the error
escaping the function, if any. -/
structure RunResult where
  fs : FsState
  trace : Trace
  err : Option JsError
deriving DecidableEq

/-- Effect of `new Conf()`: per the source, initializing the conf store
implicitly creates an empty config directory if none exists. -/
def confNew (fs : FsState) : FsState := { fs with dirExists := true }

/-- The fs.rmdirSync call on configDirPath followed by the conditional
success log. rmdirSync throws when the directory is absent, still holds the
config file, or a fault is injected; on success the directory is removed and,
when isConfigExists was recorded true, the success message is logged. The
Bool result reports whether the call threw. -/
def rmdirAndReport (faults : Faults) (isConfigExists : Bool) (fs : FsState)
    (tr : Trace) : FsState × Trace × Bool :=
  if faults.rmdirFault || fs.fileExists || !fs.dirExists then
    (fs, { tr with rmdirCalls := tr.rmdirCalls + 1 }, true)
  else
    ({ fs with dirExists := false },
     { tr with rmdirCalls := tr.rmdirCalls + 1,
               logs := tr.logs ++ (if isConfigExists then [successMsg] else []) },
     false)

/-- The try-block of deleteConfig: existence check, optional confirmation
prompt and unlink, then rmdir and reporting. `answer` is the user's reply to
the confirmation prompt when it is shown. Returns the filesystem after the
block, the trace, and whether a filesystem error was thrown (to be handled
by the catch-block). unlinkSync throws when the file is absent or a fault is
injected. -/
def deleteConfigTry (answer : Bool) (fs : FsState) (faults : Faults) :
    FsState × Trace × Bool :=
  if faults.existsSyncFault then
    (fs, ⟨1, 0, 0, 0, []⟩, true)
  else
    let isConfigExists := fs.fileExists
    if isConfigExists then
      if !answer then
        (fs, ⟨1, 1, 0, 0, [keepConfigMsg]⟩, false)
      else if faults.unlinkFault || !fs.fileExists then
        (fs, ⟨1, 1, 1, 0, []⟩, true)
      else
        rmdirAndReport faults isConfigExists { fs with fileExists := false }
          ⟨1, 1, 1, 0, []⟩
    else
      rmdirAndReport faults isConfigExists fs ⟨1, 0, 0, 0, []⟩

/-- deleteConfig of src/scripts/pre-uninstall.js. Reads npm_config_argv
(defaulting to the parse of the empty-object string when unset), throws if
the string is not valid JSON, gates on the original tokens containing
"uninstall", then creates the conf store, computes the directory path, and
runs the try/catch cleanup. -/
def deleteConfig (env : Env) (answer : Bool) (fs0 : FsState) (faults : Faults)
    (configFilePath : String) : RunResult :=
  match env.npm_config_argv.getD (ArgvParse.valid none) with
  | ArgvParse.invalid =>
      { fs := fs0, trace := Trace.empty, err := some JsError.jsonParse }
  | ArgvParse.valid originalField =>
      let original := originalField.getD []
      if !(original.contains "uninstall") then
        { fs := fs0, trace := Trace.empty, err := none }
      else
        let fs1 := confNew fs0
        let configDirPath := dirname configFilePath
        let r := deleteConfigTry answer fs1 faults
        if r.2.2 then
          { fs := r.1,
            trace := { r.2.1 with
                       logs := r.2.1.logs
                         ++ [failedMsg, manualDeleteMsg configDirPath] },
            err := none }
        else
          { fs := r.1, trace := r.2.1, err := none }

/-- The question object built by getDeleteConfigConfirmation in
src/lib/prompt.js and handed to the prompts library. -/
structure PromptQuestion where
  type : String
  name : String
  message : String
  initial : Bool
deriving DecidableEq

/-- getDeleteConfigConfirmation of src/lib/prompt.js: the confirm-type
question it constructs. -/
def getDeleteConfigConfirmation : PromptQuestion :=
  { type := "confirm"
    name := "confirmation"
    message := "Are you sure you want to delete the app configuration"
    initial := false }

/-- Behavior of the external prompts library on a confirm-type question: the
reply is yes or no, and submitting the default (an empty reply) yields the
question's initial value. -/
def promptsConfirm (q : PromptQuestion) (reply : Option Bool) : Bool :=
  reply.getD q.initial

end ConfigCleanup

namespace ConfigCleanup

/-- C1: for every environment whose recorded command-token list (the parsed
original array of npm_config_argv) does not contain the token "uninstall",
deleteConfig returns immediately: the filesystem is unchanged, no file or
directory is deleted, no prompt is shown, nothing is logged, and no error
escapes. -/
theorem deleteConfig_no_uninstall_token_noop (env : Env) (answer : Bool)
    (fs0 : FsState) (faults : Faults) (p : String) (o : Option (List String))
    (h : env.npm_config_argv.getD (ArgvParse.valid none) = ArgvParse.valid o)
    (h2 : "uninstall" ∉ o.getD []) :
    deleteConfig env answer fs0 faults p =
      { fs := fs0, trace := Trace.empty, err := none } := by
  unfold deleteConfig
  rw [h]
  simp [h2]

/-- C1 witness: the hypotheses and conclusion of
deleteConfig_no_uninstall_token_noop at the upgrade command. -/
theorem deleteConfig_no_uninstall_token_noop_witness :
    ((⟨some (ArgvParse.valid (some ["update", "-g", "jenni"]))⟩ :
        Env).npm_config_argv.getD (ArgvParse.valid none)
      = ArgvParse.valid (some ["update", "-g", "jenni"])) ∧
    "uninstall" ∉ ((some ["update", "-g", "jenni"] :
        Option (List String)).getD []) ∧
    deleteConfig ⟨some (ArgvParse.valid (some ["update", "-g", "jenni"]))⟩
        true ⟨true, true⟩ ⟨false, false, false⟩ "a/b" =
      { fs := ⟨true, true⟩, trace := Trace.empty, err := none } :=
  ⟨by decide, by decide,
   deleteConfig_no_uninstall_token_noop _ true ⟨true, true⟩
     ⟨false, false, false⟩ "a/b" (some ["update", "-g", "jenni"])
     (by decide) (by decide)⟩

/-- C2: for every run of deleteConfig in which the token list contains
"uninstall", the configuration file exists, the user accepts the
confirmation prompt, and no filesystem call faults (so both deletions
succeed), afterwards the configuration file and its parent directory are
both absent and the output is exactly one success message. -/
theorem deleteConfig_accept_deletes_all (env : Env) (de : Bool) (p : String)
    (o : Option (List String))
    (h : env.npm_config_argv.getD (ArgvParse.valid none) = ArgvParse.valid o)
    (hu : "uninstall" ∈ o.getD []) :
    deleteConfig env true ⟨true, de⟩ ⟨false, false, false⟩ p =
      { fs := ⟨false, false⟩,
        trace := ⟨1, 1, 1, 1, [successMsg]⟩, err := none } := by
  unfold deleteConfig
  rw [h]
  simp [hu, deleteConfigTry, rmdirAndReport, confNew]

/-- C2 witness: deleteConfig_accept_deletes_all at the uninstall command. -/
theorem deleteConfig_accept_deletes_all_witness :
    ((⟨some (ArgvParse.valid (some ["uninstall", "-g", "jenni"]))⟩ :
        Env).npm_config_argv.getD (ArgvParse.valid none)
      = ArgvParse.valid (some ["uninstall", "-g", "jenni"])) ∧
    "uninstall" ∈ ((some ["uninstall", "-g", "jenni"] :
        Option (List String)).getD []) ∧
    deleteConfig ⟨some (ArgvParse.valid (some ["uninstall", "-g", "jenni"]))⟩
        true ⟨true, true⟩ ⟨false, false, false⟩ "a/b" =
      { fs := ⟨false, false⟩,
        trace := ⟨1, 1, 1, 1, [successMsg]⟩, err := none } :=
  ⟨by decide, by decide,
   deleteConfig_accept_deletes_all _ true "a/b"
     (some ["uninstall", "-g", "jenni"]) (by decide) (by decide)⟩

/-- C3 counterexample: a run that passes the command-gate (the token list is
the uninstall command) in which the file exists and the user declines the
prompt makes no rmdirSync call at all, refuting the claim that the
directory-removal step is attempted regardless of the user's answer. -/
theorem deleteConfig_decline_skips_rmdir :
    (deleteConfig ⟨some (ArgvParse.valid (some ["uninstall", "-g", "jenni"]))⟩
        false ⟨true, true⟩ ⟨false, false, false⟩
        "/home/u/.config/jenni-nodejs/config.json").trace.rmdirCalls = 0 := by
  decide

/-- C3 amended: for every run of deleteConfig that passes the command-gate,
does not fault on the existence check, and does not stop at the prompt —
that is, the configuration file is absent, or it is present, the user
accepts, and the file deletion does not fault — the directory-removal step
is attempted exactly once. -/
theorem deleteConfig_rmdir_attempted_unless_declined (env : Env)
    (answer : Bool) (fs0 : FsState) (rf : Bool) (p : String)
    (o : Option (List String))
    (h : env.npm_config_argv.getD (ArgvParse.valid none) = ArgvParse.valid o)
    (hu : "uninstall" ∈ o.getD [])
    (hproceed : fs0.fileExists = false ∨ answer = true) :
    (deleteConfig env answer fs0 ⟨false, false, rf⟩ p).trace.rmdirCalls = 1 := by
  unfold deleteConfig
  rw [h]
  obtain ⟨fe, de⟩ := fs0
  rcases hproceed with hf | ha
  · simp at hf
    subst hf
    cases rf <;> simp [hu, deleteConfigTry, rmdirAndReport, confNew]
  · subst ha
    cases fe <;> cases rf <;> simp [hu, deleteConfigTry, rmdirAndReport, confNew]

/-- C3 witness: deleteConfig_rmdir_attempted_unless_declined with the file
absent. -/
theorem deleteConfig_rmdir_attempted_unless_declined_witness :
    ((⟨some (ArgvParse.valid (some ["uninstall", "-g", "jenni"]))⟩ :
        Env).npm_config_argv.getD (ArgvParse.valid none)
      = ArgvParse.valid (some ["uninstall", "-g", "jenni"])) ∧
    "uninstall" ∈ ((some ["uninstall", "-g", "jenni"] :
        Option (List String)).getD []) ∧
    ((⟨false, true⟩ : FsState).fileExists = false ∨ true = true) ∧
    (deleteConfig ⟨some (ArgvParse.valid (some ["uninstall", "-g", "jenni"]))⟩
        true ⟨false, true⟩ ⟨false, false, false⟩ "a/b").trace.rmdirCalls = 1 :=
  ⟨by decide, by decide, by decide,
   deleteConfig_rmdir_attempted_unless_declined _ true ⟨false, true⟩ false
     "a/b" (some ["uninstall", "-g", "jenni"]) (by decide) (by decide)
     (by decide)⟩

end ConfigCleanup

namespace ConfigCleanup

/-- C4: for every run of deleteConfig that passes the command-gate and in
which some filesystem operation of the try-block (existence check, file
deletion, or directory removal) raises, the error does not propagate past
deleteConfig's boundary: the run completes with no escaping error and logs
the remediation message naming the configuration directory. -/
theorem deleteConfig_fs_error_caught (env : Env) (answer : Bool)
    (fs0 : FsState) (faults : Faults) (p : String) (o : Option (List String))
    (h : env.npm_config_argv.getD (ArgvParse.valid none) = ArgvParse.valid o)
    (hu : "uninstall" ∈ o.getD [])
    (hthrew : (deleteConfigTry answer (confNew fs0) faults).2.2 = true) :
    (deleteConfig env answer fs0 faults p).err = none ∧
    manualDeleteMsg (dirname p)
      ∈ (deleteConfig env answer fs0 faults p).trace.logs := by
  unfold deleteConfig
  rw [h]
  simp [hu, hthrew]

/-- C4 witness: deleteConfig_fs_error_caught with a faulting existence
check. -/
theorem deleteConfig_fs_error_caught_witness :
    ((⟨some (ArgvParse.valid (some ["uninstall", "-g", "jenni"]))⟩ :
        Env).npm_config_argv.getD (ArgvParse.valid none)
      = ArgvParse.valid (some ["uninstall", "-g", "jenni"])) ∧
    "uninstall" ∈ ((some ["uninstall", "-g", "jenni"] :
        Option (List String)).getD []) ∧
    (deleteConfigTry true (confNew ⟨true, true⟩) ⟨true, false, false⟩).2.2
      = true ∧
    ((deleteConfig ⟨some (ArgvParse.valid (some ["uninstall", "-g", "jenni"]))⟩
        true ⟨true, true⟩ ⟨true, false, false⟩ "a/b").err = none ∧
     manualDeleteMsg (dirname "a/b")
       ∈ (deleteConfig
            ⟨some (ArgvParse.valid (some ["uninstall", "-g", "jenni"]))⟩
            true ⟨true, true⟩ ⟨true, false, false⟩ "a/b").trace.logs) :=
  ⟨by decide, by decide, by decide,
   deleteConfig_fs_error_caught _ true ⟨true, true⟩ ⟨true, false, false⟩
     "a/b" (some ["uninstall", "-g", "jenni"]) (by decide) (by decide)
     (by decide)⟩

/-- C5: for every run of deleteConfig in which the token list contains
"uninstall", the configuration file exists, the existence check does not
fault, and the user declines the confirmation prompt, afterwards the file
still exists, the output is exactly the keep-configuration message, and no
success message is emitted. -/
theorem deleteConfig_decline_keeps_file (env : Env) (de uf rf : Bool)
    (p : String) (o : Option (List String))
    (h : env.npm_config_argv.getD (ArgvParse.valid none) = ArgvParse.valid o)
    (hu : "uninstall" ∈ o.getD []) :
    deleteConfig env false ⟨true, de⟩ ⟨false, uf, rf⟩ p =
      { fs := ⟨true, true⟩,
        trace := ⟨1, 1, 0, 0, [keepConfigMsg]⟩, err := none } ∧
    successMsg ∉ (deleteConfig env false ⟨true, de⟩ ⟨false, uf, rf⟩ p).trace.logs := by
  have main : deleteConfig env false ⟨true, de⟩ ⟨false, uf, rf⟩ p =
      { fs := ⟨true, true⟩,
        trace := ⟨1, 1, 0, 0, [keepConfigMsg]⟩, err := none } := by
    unfold deleteConfig
    rw [h]
    simp [hu, deleteConfigTry, confNew]
  exact ⟨main, by rw [main]; decide⟩

/-- C5 witness: deleteConfig_decline_keeps_file at the uninstall command. -/
theorem deleteConfig_decline_keeps_file_witness :
    ((⟨some (ArgvParse.valid (some ["uninstall", "-g", "jenni"]))⟩ :
        Env).npm_config_argv.getD (ArgvParse.valid none)
      = ArgvParse.valid (some ["uninstall", "-g", "jenni"])) ∧
    "uninstall" ∈ ((some ["uninstall", "-g", "jenni"] :
        Option (List String)).getD []) ∧
    (deleteConfig ⟨some (ArgvParse.valid (some ["uninstall", "-g", "jenni"]))⟩
        false ⟨true, true⟩ ⟨false, false, false⟩ "a/b" =
      { fs := ⟨true, true⟩,
        trace := ⟨1, 1, 0, 0, [keepConfigMsg]⟩, err := none } ∧
     successMsg ∉ (deleteConfig
         ⟨some (ArgvParse.valid (some ["uninstall", "-g", "jenni"]))⟩
         false ⟨true, true⟩ ⟨false, false, false⟩ "a/b").trace.logs) :=
  ⟨by decide, by decide,
   deleteConfig_decline_keeps_file _ true false false "a/b"
     (some ["uninstall", "-g", "jenni"]) (by decide) (by decide)⟩

/-- C6: for every run of deleteConfig in which the token list contains
"uninstall", the configuration file does not exist, and the existence check
does not fault, no confirmation prompt is presented and the
directory-removal step runs exactly once. -/
theorem deleteConfig_absent_file_skips_prompt (env : Env)
    (answer de uf rf : Bool) (p : String) (o : Option (List String))
    (h : env.npm_config_argv.getD (ArgvParse.valid none) = ArgvParse.valid o)
    (hu : "uninstall" ∈ o.getD []) :
    (deleteConfig env answer ⟨false, de⟩ ⟨false, uf, rf⟩ p).trace.promptCalls
      = 0 ∧
    (deleteConfig env answer ⟨false, de⟩ ⟨false, uf, rf⟩ p).trace.rmdirCalls
      = 1 := by
  unfold deleteConfig
  rw [h]
  cases rf <;> simp [hu, deleteConfigTry, rmdirAndReport, confNew]

/-- C6 witness: deleteConfig_absent_file_skips_prompt with an absent file. -/
theorem deleteConfig_absent_file_skips_prompt_witness :
    ((⟨some (ArgvParse.valid (some ["uninstall", "-g", "jenni"]))⟩ :
        Env).npm_config_argv.getD (ArgvParse.valid none)
      = ArgvParse.valid (some ["uninstall", "-g", "jenni"])) ∧
    "uninstall" ∈ ((some ["uninstall", "-g", "jenni"] :
        Option (List String)).getD []) ∧
    ((deleteConfig ⟨some (ArgvParse.valid (some ["uninstall", "-g", "jenni"]))⟩
        true ⟨false, true⟩ ⟨false, false, false⟩ "a/b").trace.promptCalls = 0 ∧
     (deleteConfig ⟨some (ArgvParse.valid (some ["uninstall", "-g", "jenni"]))⟩
        true ⟨false, true⟩ ⟨false, false, false⟩ "a/b").trace.rmdirCalls = 1) :=
  ⟨by decide, by decide,
   deleteConfig_absent_file_skips_prompt _ true true false false "a/b"
     (some ["uninstall", "-g", "jenni"]) (by decide) (by decide)⟩

end ConfigCleanup

namespace ConfigCleanup

/-- C7: running deleteConfig twice in sequence from a state in which the
configuration file is already absent (gate passed, existence check not
faulting) produces the same trace both times, each run attempts directory
removal exactly once, and neither run lets an error escape its boundary. -/
theorem deleteConfig_idempotent_file_absent (env : Env) (a1 a2 de uf rf : Bool)
    (p : String) (o : Option (List String))
    (h : env.npm_config_argv.getD (ArgvParse.valid none) = ArgvParse.valid o)
    (hu : "uninstall" ∈ o.getD []) :
    (deleteConfig env a2 (deleteConfig env a1 ⟨false, de⟩ ⟨false, uf, rf⟩ p).fs
        ⟨false, uf, rf⟩ p).trace
      = (deleteConfig env a1 ⟨false, de⟩ ⟨false, uf, rf⟩ p).trace ∧
    (deleteConfig env a1 ⟨false, de⟩ ⟨false, uf, rf⟩ p).trace.rmdirCalls = 1 ∧
    (deleteConfig env a1 ⟨false, de⟩ ⟨false, uf, rf⟩ p).err = none ∧
    (deleteConfig env a2 (deleteConfig env a1 ⟨false, de⟩ ⟨false, uf, rf⟩ p).fs
        ⟨false, uf, rf⟩ p).err = none := by
  unfold deleteConfig
  rw [h]
  cases rf <;> simp [hu, deleteConfigTry, rmdirAndReport, confNew]

/-- C7 witness: deleteConfig_idempotent_file_absent with a present
directory and no faults. -/
theorem deleteConfig_idempotent_file_absent_witness :
    ((⟨some (ArgvParse.valid (some ["uninstall", "-g", "jenni"]))⟩ :
        Env).npm_config_argv.getD (ArgvParse.valid none)
      = ArgvParse.valid (some ["uninstall", "-g", "jenni"])) ∧
    "uninstall" ∈ ((some ["uninstall", "-g", "jenni"] :
        Option (List String)).getD []) ∧
    ((deleteConfig ⟨some (ArgvParse.valid (some ["uninstall", "-g", "jenni"]))⟩
        false
        (deleteConfig ⟨some (ArgvParse.valid (some ["uninstall", "-g", "jenni"]))⟩
          true ⟨false, true⟩ ⟨false, false, false⟩ "a/b").fs
        ⟨false, false, false⟩ "a/b").trace
      = (deleteConfig ⟨some (ArgvParse.valid (some ["uninstall", "-g", "jenni"]))⟩
          true ⟨false, true⟩ ⟨false, false, false⟩ "a/b").trace ∧
     (deleteConfig ⟨some (ArgvParse.valid (some ["uninstall", "-g", "jenni"]))⟩
        true ⟨false, true⟩ ⟨false, false, false⟩ "a/b").trace.rmdirCalls = 1 ∧
     (deleteConfig ⟨some (ArgvParse.valid (some ["uninstall", "-g", "jenni"]))⟩
        true ⟨false, true⟩ ⟨false, false, false⟩ "a/b").err = none ∧
     (deleteConfig ⟨some (ArgvParse.valid (some ["uninstall", "-g", "jenni"]))⟩
        false
        (deleteConfig ⟨some (ArgvParse.valid (some ["uninstall", "-g", "jenni"]))⟩
          true ⟨false, true⟩ ⟨false, false, false⟩ "a/b").fs
        ⟨false, false, false⟩ "a/b").err = none) :=
  ⟨by decide, by decide,
   deleteConfig_idempotent_file_absent _ true false true false false "a/b"
     (some ["uninstall", "-g", "jenni"]) (by decide) (by decide)⟩

/-- C8: the confirmation prompt built by getDeleteConfigConfirmation is a
single confirm-type (yes/no) question whose initial answer is false, so the
prompts library treats an empty default reply as a decline. -/
theorem getDeleteConfigConfirmation_default_no :
    getDeleteConfigConfirmation.type = "confirm" ∧
    getDeleteConfigConfirmation.initial = false ∧
    promptsConfirm getDeleteConfigConfirmation none = false :=
  ⟨rfl, rfl, rfl⟩

/-- C9: for every environment whose npm_config_argv is set to a string that
is not valid JSON, deleteConfig raises the JSON.parse error past its own
boundary before any filesystem access or prompting: the error escapes, the
trace is empty, and the filesystem is untouched. -/
theorem deleteConfig_invalid_argv_throws (env : Env) (answer : Bool)
    (fs0 : FsState) (faults : Faults) (p : String)
    (h : env.npm_config_argv = some ArgvParse.invalid) :
    deleteConfig env answer fs0 faults p =
      { fs := fs0, trace := Trace.empty, err := some JsError.jsonParse } := by
  unfold deleteConfig
  rw [h]
  rfl

/-- C9 witness: deleteConfig_invalid_argv_throws at a concrete state. -/
theorem deleteConfig_invalid_argv_throws_witness :
    ((⟨some ArgvParse.invalid⟩ : Env).npm_config_argv
      = some ArgvParse.invalid) ∧
    deleteConfig ⟨some ArgvParse.invalid⟩ true ⟨true, true⟩
        ⟨false, false, false⟩ "a/b" =
      { fs := ⟨true, true⟩, trace := Trace.empty,
        err := some JsError.jsonParse } :=
  ⟨by decide,
   deleteConfig_invalid_argv_throws _ true ⟨true, true⟩ ⟨false, false, false⟩
     "a/b" (by decide)⟩

/-- C10: for every environment in which npm_config_argv is unset,
deleteConfig treats the recorded command as the empty token list and returns
immediately: the filesystem is unchanged, nothing is called or logged, and
no error escapes. -/
theorem deleteConfig_unset_argv_noop (answer : Bool) (fs0 : FsState)
    (faults : Faults) (p : String) :
    deleteConfig ⟨none⟩ answer fs0 faults p =
      { fs := fs0, trace := Trace.empty, err := none } := rfl

end ConfigCleanup
